import Mathlib

/-!
Shallow embedding of the runpod-lora-trainer download script
(src/src/download.py), a command-line utility that validates a model id
and a token, probes a metadata endpoint, and delegates the file transfer
to wget.  The script is straight-line code; we model one invocation as a
pure function of the parsed arguments, the state of the environment
variable civitai_token, the HTTP status returned by the metadata probe,
and the return code reported by wget.  The function returns the process
exit code, the printed error message (if any), and the list of network
requests and wget command lines issued, in order.
-/

namespace CivitaiFetch

/-- Parsed command-line arguments: the required model flag and the
optional token flag (an option type, none when the flag is absent). -/
structure Args where
  model : String
  token : Option String
deriving Repr, DecidableEq

/-- Observable outcome of one invocation of the script: the process exit
code, the printed error message if any, the URLs fetched by requests.get
in order, and the argument vectors of the subprocess.run invocations of
wget in order. -/
structure RunResult where
  exitCode : Nat
  message : Option String
  metaRequests : List String
  wgetCalls : List (List String)
deriving Repr, DecidableEq

/-- Message printed when the model id fails the digit check
(the InvalidInput error of the spec). -/
def invalidInputMsg : String := "Error: model ID must be numeric."

/-- Message printed when no token is resolvable
(the MissingCredential error of the spec). -/
def missingCredentialMsg : String :=
  "Error: no token provided. Set the \x27civitai_token\x27 environment variable or use --token."

/-- Message printed when the metadata probe does not return HTTP 200
(the MetadataLookupFailed error of the spec). -/
def metadataFailedMsg : String := "Error: Failed to retrieve model metadata."

/-- Message printed when wget reports a non-zero return code
(the DownloadFailed error of the spec). -/
def downloadFailedMsg : String := "Error: wget download failed."

/-- Python os.getenv with a default: returns the value of the environment
variable when it is set (even when it is set to the empty string), and the
default otherwise.  Embeds the call
os.getenv("civitai_token", args.token) at download.py line 15. -/
def osGetenv (env : Option String) (dflt : Option String) : Option String :=
  match env with
  | some v => some v
  | none => dflt

/-- Python truthiness of an optional string, as tested by the statement
`if not token` at download.py line 21: None and the empty string are
falsy, every other string is truthy. -/
def pyTruthy : Option String → Bool
  | none => false
  | some s => decide (s.data ≠ [])

/-- The closed code-point ranges of the characters accepted by Python
str.isdigit: exactly the characters whose Unicode Numeric_Type is
Decimal or Digit.  The table is the complete one of the Unicode 14.0
character database as shipped with CPython 3.11: the ASCII digits 48-57,
the Latin-1 superscripts 178, 179 and 185, the decimal digits of every
script (Arabic-Indic 1632-1641, fullwidth 65296-65305, mathematical
120782-120831, and so on), and the superscript, subscript, circled and
parenthesized digit characters whose Numeric_Type is Digit. -/
def pyDigitRanges : List (Nat × Nat) :=
  [(48, 57), (178, 179), (185, 185), (1632, 1641), (1776, 1785),
   (1984, 1993), (2406, 2415), (2534, 2543), (2662, 2671), (2790, 2799),
   (2918, 2927), (3046, 3055), (3174, 3183), (3302, 3311), (3430, 3439),
   (3558, 3567), (3664, 3673), (3792, 3801), (3872, 3881), (4160, 4169),
   (4240, 4249), (4969, 4977), (6112, 6121), (6160, 6169), (6470, 6479),
   (6608, 6618), (6784, 6793), (6800, 6809), (6992, 7001), (7088, 7097),
   (7232, 7241), (7248, 7257), (8304, 8304), (8308, 8313), (8320, 8329),
   (9312, 9320), (9332, 9340), (9352, 9360), (9450, 9450), (9461, 9469),
   (9471, 9471), (10102, 10110), (10112, 10120), (10122, 10130),
   (42528, 42537), (43216, 43225), (43264, 43273), (43472, 43481),
   (43504, 43513), (43600, 43609), (44016, 44025), (65296, 65305),
   (66720, 66729), (68160, 68163), (68912, 68921), (69216, 69224),
   (69714, 69722), (69734, 69743), (69872, 69881), (69942, 69951),
   (70096, 70105), (70384, 70393), (70736, 70745), (70864, 70873),
   (71248, 71257), (71360, 71369), (71472, 71481), (71904, 71913),
   (72016, 72025), (72784, 72793), (73040, 73049), (73120, 73129),
   (92768, 92777), (92864, 92873), (93008, 93017), (120782, 120831),
   (123200, 123209), (123632, 123641), (125264, 125273),
   (127232, 127242), (130032, 130041)]

/-- Python str.isdigit on a single character: true exactly when the code
point lies in one of the ranges of pyDigitRanges, that is, when the
Unicode Numeric_Type of the character is Decimal or Digit. -/
def pyCharIsDigit (c : Char) : Bool :=
  pyDigitRanges.any (fun r => decide (r.1 ≤ c.toNat ∧ c.toNat ≤ r.2))

/-- Python str.isdigit on a string, as called at download.py line 16:
true iff the string is non-empty and every character is a digit in the
sense of pyCharIsDigit. -/
def pyStrIsDigit (s : String) : Bool :=
  decide (s.data ≠ []) && s.data.all pyCharIsDigit

/-- The regular expression of the spec data model: a string matches
the pattern caret [0-9]+ dollar iff it is non-empty and every character
is an ASCII digit 0-9.  This definition follows the words of the spec,
to be compared with pyStrIsDigit, the predicate the code actually uses. -/
def matchesDigitRegex (s : String) : Bool :=
  decide (s.data ≠ []) && s.data.all (fun c => decide (48 ≤ c.toNat ∧ c.toNat ≤ 57))

/-- The metadata probe URL built at download.py line 25. -/
def metadataUrl (model : String) : String :=
  "https://civitai.com/api/v1/model-versions/" ++ model

/-- The download URL built at download.py line 30, with the model id and
the resolved token interpolated verbatim. -/
def downloadUrl (model : String) (token : String) : String :=
  "https://civitai.com/api/download/models/" ++ model ++
    "?type=Model&format=SafeTensor&token=" ++ token

/-- The argument vector passed to subprocess.run at download.py line 31:
wget, the download URL, and the flag telling wget to honor the filename
suggested by the server via the Content-Disposition header. -/
def wgetCommand (url : String) : List String :=
  ["wget", url, "--content-disposition"]

/-- One invocation of download.py, as a function of the parsed arguments,
the state of the environment variable civitai_token (none when unset,
some v when set to v, including v equal to the empty string), the HTTP
status code the metadata probe returns, and the return code wget reports.
Mirrors the straight-line control flow of download.py lines 15-38:
resolve the token via os.getenv, reject a non-digit model id, reject a
falsy token, issue the metadata GET, and on status 200 run wget once,
failing when its return code is non-zero.  Falling off the end of the
script exits with code 0. -/
def run (args : Args) (env : Option String) (metaStatus : Nat)
    (wgetReturncode : Int) : RunResult :=
  let token := osGetenv env args.token
  if !pyStrIsDigit args.model then
    { exitCode := 1, message := some invalidInputMsg,
      metaRequests := [], wgetCalls := [] }
  else if !pyTruthy token then
    { exitCode := 1, message := some missingCredentialMsg,
      metaRequests := [], wgetCalls := [] }
  else
    let url := metadataUrl args.model
    if metaStatus == 200 then
      let durl := downloadUrl args.model (token.getD "")
      if wgetReturncode != 0 then
        { exitCode := 1, message := some downloadFailedMsg,
          metaRequests := [url], wgetCalls := [wgetCommand durl] }
      else
        { exitCode := 0, message := none,
          metaRequests := [url], wgetCalls := [wgetCommand durl] }
    else
      { exitCode := 1, message := some metadataFailedMsg,
        metaRequests := [url], wgetCalls := [] }

/-- A non-empty string has a non-empty character list. -/
theorem data_ne_nil_of_ne_empty {s : String} (h : s ≠ "") : s.data ≠ [] := by
  intro hd
  exact h (String.ext hd)

/-- Every string matching the spec regex (non-empty, ASCII digits only)
is accepted by Python str.isdigit. -/
theorem matchesDigitRegex_imp_pyStrIsDigit (s : String)
    (h : matchesDigitRegex s = true) : pyStrIsDigit s = true := by
  unfold matchesDigitRegex at h
  unfold pyStrIsDigit
  rw [Bool.and_eq_true] at h ⊢
  refine ⟨h.1, ?_⟩
  rw [List.all_eq_true] at h ⊢
  intro c hc
  have hcd := h.2 c hc
  rw [decide_eq_true_iff] at hcd
  unfold pyCharIsDigit pyDigitRanges
  simp only [List.any_cons, Bool.or_eq_true]
  exact Or.inl (decide_eq_true hcd)

/-- C1 counterexample: with the model id 123, the explicit token argtok
and the environment variable set to envtok, the invocation that reaches
the download interpolates envtok, not the explicitly supplied argtok,
into the download URL, so explicit input does not take precedence. -/
theorem C1_counterexample :
    (run ⟨"123", some "argtok"⟩ (some "envtok") 200 0).wgetCalls =
      [wgetCommand (downloadUrl "123" "envtok")] ∧
    wgetCommand (downloadUrl "123" "envtok") ≠
      wgetCommand (downloadUrl "123" "argtok") := by
  decide

/-- C1 amended: the environment variable takes precedence over the
explicit token argument.  For every invocation in which the environment
variable civitai_token is set to a non-empty value v, the token
interpolated into the download URL is v, whatever explicit token the
command line supplies. -/
theorem C1_env_precedence (m a v : String) (wx : Int)
    (hm : pyStrIsDigit m = true) (hv : v ≠ "") :
    (run ⟨m, some a⟩ (some v) 200 wx).wgetCalls =
      [wgetCommand (downloadUrl m v)] := by
  have hd := data_ne_nil_of_ne_empty hv
  rcases eq_or_ne wx 0 with h0 | h0 <;>
    simp [run, osGetenv, pyTruthy, hm, hd, h0]

/-- C1 amended witness at a concrete input. -/
theorem C1_env_precedence_witness :
    (run ⟨"1", some "argtok"⟩ (some "envtok") 200 0).wgetCalls =
      [wgetCommand (downloadUrl "1" "envtok")] :=
  C1_env_precedence "1" "argtok" "envtok" 0 (by decide) (by decide)

/-- C2 counterexample: the superscript-two character (U+00B2) does not
match the regex of ASCII digits, yet Python str.isdigit accepts it, so
the invocation with that model id proceeds past the InvalidInput check
(here all the way to a successful download with exit code 0). -/
theorem C2_counterexample :
    matchesDigitRegex "²" = false ∧
    (run ⟨"²", some "t"⟩ none 200 0).message ≠ some invalidInputMsg ∧
    (run ⟨"²", some "t"⟩ none 200 0).exitCode = 0 := by
  decide

/-- C2 amended: the program rejects a model id with InvalidInput exactly
when Python str.isdigit rejects it (empty, or some character is not a
Unicode digit); every string matching the ASCII regex is accepted, but
acceptance is strictly broader, as the counterexample with the
superscript-two character shows. -/
theorem C2_accepts_iff_pyIsDigit (s : String) (tok env : Option String)
    (st : Nat) (wx : Int) :
    ((run ⟨s, tok⟩ env st wx).message = some invalidInputMsg ↔
      pyStrIsDigit s = false) ∧
    (matchesDigitRegex s = true → pyStrIsDigit s = true) := by
  refine ⟨?_, matchesDigitRegex_imp_pyStrIsDigit s⟩
  rcases hd : pyStrIsDigit s with _ | _
  · simp [run, hd]
  · simp only [run, hd, Bool.not_true, Bool.false_eq_true, if_false, iff_false]
    split
    · simp [missingCredentialMsg, invalidInputMsg]
    · split
      · split
        · simp [downloadFailedMsg, invalidInputMsg]
        · simp
      · simp [metadataFailedMsg, invalidInputMsg]

/-- C2 amended witness at a concrete input. -/
theorem C2_accepts_iff_pyIsDigit_witness : pyStrIsDigit "42" = true :=
  (C2_accepts_iff_pyIsDigit "42" none none 200 0).2 (by decide)

/-- C3: whenever an invocation passes both validations and the metadata
probe returns HTTP 200, wget is invoked exactly once, on the download
URL with the model id and the resolved token interpolated verbatim and
the query parameters type=Model and format=SafeTensor, together with the
content-disposition flag that honors the server-suggested filename. -/
theorem C3_wget_invocation (args : Args) (env : Option String) (wx : Int)
    (t : String) (hm : pyStrIsDigit args.model = true)
    (ht : osGetenv env args.token = some t) (hne : t ≠ "") :
    (run args env 200 wx).wgetCalls =
      [wgetCommand (downloadUrl args.model t)] := by
  have hd := data_ne_nil_of_ne_empty hne
  rcases eq_or_ne wx 0 with h0 | h0 <;>
    simp [run, pyTruthy, hm, ht, hd, h0]

/-- C3 witness at a concrete input. -/
theorem C3_wget_invocation_witness :
    (run ⟨"7", none⟩ (some "tok") 200 0).wgetCalls =
      [wgetCommand (downloadUrl "7" "tok")] :=
  C3_wget_invocation ⟨"7", none⟩ (some "tok") 0 "tok"
    (by decide) (by decide) (by decide)

/-- C4: whenever an invocation passes both validations, exactly one
metadata GET is issued, to the model-versions URL for the given id, and
when its status is not 200 the program prints the MetadataLookupFailed
message, exits with code 1, and never invokes wget. -/
theorem C4_metadata_probe (args : Args) (env : Option String)
    (st : Nat) (wx : Int) (hm : pyStrIsDigit args.model = true)
    (ht : pyTruthy (osGetenv env args.token) = true) :
    (run args env st wx).metaRequests = [metadataUrl args.model] ∧
    (st ≠ 200 →
      (run args env st wx).message = some metadataFailedMsg ∧
      (run args env st wx).exitCode = 1 ∧
      (run args env st wx).wgetCalls = []) := by
  constructor
  · rcases eq_or_ne st 200 with h | h
    · subst h
      rcases eq_or_ne wx 0 with h0 | h0 <;> simp [run, hm, ht, h0]
    · simp [run, hm, ht, h]
  · intro h
    simp [run, hm, ht, h]

/-- C4 witness at a concrete input. -/
theorem C4_metadata_probe_witness :
    (run ⟨"5", some "k"⟩ none 404 0).metaRequests = [metadataUrl "5"] ∧
    ((run ⟨"5", some "k"⟩ none 404 0).message = some metadataFailedMsg ∧
     (run ⟨"5", some "k"⟩ none 404 0).exitCode = 1 ∧
     (run ⟨"5", some "k"⟩ none 404 0).wgetCalls = []) :=
  ⟨(C4_metadata_probe ⟨"5", some "k"⟩ none 404 0 (by decide) (by decide)).1,
   (C4_metadata_probe ⟨"5", some "k"⟩ none 404 0 (by decide) (by decide)).2
     (by decide)⟩

/-- C5 counterexample: the superscript-two character (U+00B2) is a
non-digit string in the sense of the spec regex, yet the invocation with
that model id and a token in the environment does not fail with
InvalidInput: it issues the metadata GET and can exit with code 0. -/
theorem C5_counterexample :
    matchesDigitRegex "²" = false ∧
    (run ⟨"²", some "t"⟩ none 200 0).exitCode = 0 ∧
    (run ⟨"²", some "t"⟩ none 200 0).metaRequests ≠ [] := by
  decide

/-- C5 amended: for every string rejected by Python str.isdigit (empty,
or some character is not a Unicode digit), the invocation exits with
code 1, prints the InvalidInput message, and makes no network call:
no metadata GET and no wget invocation. -/
theorem C5_reject_no_network (s : String) (tok env : Option String)
    (st : Nat) (wx : Int) (hm : pyStrIsDigit s = false) :
    run ⟨s, tok⟩ env st wx =
      { exitCode := 1, message := some invalidInputMsg,
        metaRequests := [], wgetCalls := [] } := by
  simp [run, hm]

/-- C5 amended witness at a concrete input. -/
theorem C5_reject_no_network_witness :
    run ⟨"abc", none⟩ none 200 0 =
      { exitCode := 1, message := some invalidInputMsg,
        metaRequests := [], wgetCalls := [] } :=
  C5_reject_no_network "abc" none none 200 0 (by decide)

/-- C6: for every model id matching the spec digit regex, when no
explicit token is supplied and the environment variable civitai_token is
unset, the invocation exits with code 1, prints the MissingCredential
message, and makes no network call. -/
theorem C6_missing_credential (m : String) (st : Nat) (wx : Int)
    (hm : matchesDigitRegex m = true) :
    run ⟨m, none⟩ none st wx =
      { exitCode := 1, message := some missingCredentialMsg,
        metaRequests := [], wgetCalls := [] } := by
  have hd := matchesDigitRegex_imp_pyStrIsDigit m hm
  simp [run, osGetenv, pyTruthy, hd]

/-- C6 witness at a concrete input. -/
theorem C6_missing_credential_witness :
    run ⟨"123", none⟩ none 200 0 =
      { exitCode := 1, message := some missingCredentialMsg,
        metaRequests := [], wgetCalls := [] } :=
  C6_missing_credential "123" 200 0 (by decide)

/-- C7: whenever an invocation passes both validations and the metadata
probe returns 200, a non-zero wget return code makes the program print
the DownloadFailed message and exit with code 1. -/
theorem C7_download_failed (args : Args) (env : Option String) (wx : Int)
    (hm : pyStrIsDigit args.model = true)
    (ht : pyTruthy (osGetenv env args.token) = true)
    (hw : wx ≠ 0) :
    (run args env 200 wx).message = some downloadFailedMsg ∧
    (run args env 200 wx).exitCode = 1 := by
  simp [run, hm, ht, hw]

/-- C7 witness at a concrete input. -/
theorem C7_download_failed_witness :
    (run ⟨"9", some "k"⟩ none 200 3).message = some downloadFailedMsg ∧
    (run ⟨"9", some "k"⟩ none 200 3).exitCode = 1 :=
  C7_download_failed ⟨"9", some "k"⟩ none 3 (by decide) (by decide) (by decide)

/-- C8: whenever an invocation passes both validations and the metadata
probe returns 200, a zero wget return code makes the process exit with
code 0. -/
theorem C8_success_exit_zero (args : Args) (env : Option String)
    (hm : pyStrIsDigit args.model = true)
    (ht : pyTruthy (osGetenv env args.token) = true) :
    (run args env 200 0).exitCode = 0 := by
  simp [run, hm, ht]

/-- C8 witness at a concrete input. -/
theorem C8_success_exit_zero_witness :
    (run ⟨"9", some "k"⟩ none 200 0).exitCode = 0 :=
  C8_success_exit_zero ⟨"9", some "k"⟩ none (by decide) (by decide)

/-- C9 counterexample: the superscript-two character (U+00B2) is not
all-ASCII-digit, and with no token resolvable the invocation reports
MissingCredential, not InvalidInput, because Python str.isdigit accepts
the character and the model-id check therefore passes. -/
theorem C9_counterexample :
    matchesDigitRegex "²" = false ∧
    pyTruthy (osGetenv none none) = false ∧
    (run ⟨"²", none⟩ none 200 0).message = some missingCredentialMsg ∧
    missingCredentialMsg ≠ invalidInputMsg := by
  decide

/-- C9 amended: the validation order holds for the digit test the code
performs: whenever Python str.isdigit rejects the model id and no token
is resolvable, the failure reported is InvalidInput and not
MissingCredential; the token check runs only after the model id passes
the str.isdigit test. -/
theorem C9_check_order (args : Args) (env : Option String)
    (st : Nat) (wx : Int) (hm : pyStrIsDigit args.model = false)
    (ht : pyTruthy (osGetenv env args.token) = false) :
    (run args env st wx).message = some invalidInputMsg ∧
    (run args env st wx).message ≠ some missingCredentialMsg := by
  refine ⟨by simp [run, hm], ?_⟩
  have h1 : (run args env st wx).message = some invalidInputMsg := by
    simp [run, hm]
  rw [h1]
  decide

/-- C9 amended witness at a concrete input. -/
theorem C9_check_order_witness :
    (run ⟨"abc", none⟩ none 200 0).message = some invalidInputMsg ∧
    (run ⟨"abc", none⟩ none 200 0).message ≠ some missingCredentialMsg :=
  C9_check_order ⟨"abc", none⟩ none 200 0 (by decide) (by decide)

/-- C10: when the environment variable civitai_token is set to the empty
string, os.getenv returns that empty value in place of the explicit
token argument, so for every all-digit model id and every non-empty
explicit token the invocation still fails with the MissingCredential
message, exit code 1, and no network call. -/
theorem C10_empty_env_overrides (m t : String) (st : Nat) (wx : Int)
    (hm : pyStrIsDigit m = true) (ht : t ≠ "") :
    run ⟨m, some t⟩ (some "") st wx =
      { exitCode := 1, message := some missingCredentialMsg,
        metaRequests := [], wgetCalls := [] } := by
  have h1 : osGetenv (some "") (some t) = some "" := rfl
  have h2 : pyTruthy (some "") = false := by decide
  simp [run, hm, h1, h2]

/-- C10 witness at a concrete input. -/
theorem C10_empty_env_overrides_witness :
    run ⟨"8", some "tok"⟩ (some "") 200 0 =
      { exitCode := 1, message := some missingCredentialMsg,
        metaRequests := [], wgetCalls := [] } :=
  C10_empty_env_overrides "8" "tok" 200 0 (by decide) (by decide)

end CivitaiFetch
